import Mathlib

/-
Verification of the churn-health dashboard (streamlit_app.py) against its
design specification.  The Python source is shallowly embedded below:
pandas frames become explicit structures over lists, numeric cells are
exact rationals, external collaborators (the pickled classifier, the
generative-text service, the SMTP relay) are opaque function parameters,
and fallible operations return Option/Except/Bool exactly where the
source catches exceptions or returns sentinel values.
-/

namespace ChurnDashboard

/-- A cell of the `TotalCharges` column: a raw string, a number, or a
missing value (pandas NaN). -/
inductive Cell where
  | str (s : String)
  | num (q : ℚ)
  | na
deriving DecidableEq, Repr

/-- One row of the uploaded customer table.  `customerID` is only
meaningful when the frame's `hasCustomerID` flag is set (pandas column
presence is a frame-level property).  Feature columns other than the ones
the dashboard touches are kept opaque in `otherFeatures`. -/
structure Row where
  customerID : String
  totalCharges : Cell
  email : String
  complaint : String
  otherFeatures : List Cell
deriving DecidableEq, Repr

/-- The uploaded table (a pandas DataFrame).  `healthScores` is the
`health_score` column, `none` until `predict_health_scores` appends it
in place (line 41 of streamlit_app.py). -/
structure DF where
  hasCustomerID : Bool
  hasTotalCharges : Bool
  rows : List Row
  healthScores : Option (List ℚ)
deriving DecidableEq, Repr

/-! ### Numeric coercion of `TotalCharges` (streamlit_app.py lines 29-30)

`pd.to_numeric(df["TotalCharges"], errors="coerce").fillna(0)`: a string
cell is parsed as a decimal number, unparseable strings become NaN which
`fillna` turns into 0, already-missing cells likewise become 0, and
numeric cells pass through.  `parseNumeric` models the decimal forms
(optional sign, integer part, optional fractional part); `none` is a
parse failure. -/

/-- Accumulate a run of decimal digits; any non-digit character fails. -/
def natOfDigitsAux : List Char → Nat → Option Nat
  | [], acc => some acc
  | c :: cs, acc =>
      if c.isDigit then natOfDigitsAux cs (acc * 10 + (c.toNat - 48)) else none

/-- A non-empty all-digit run as a natural number. -/
def natOfDigits (cs : List Char) : Option Nat :=
  if cs.isEmpty then none else natOfDigitsAux cs 0

/-- Split a character list at the first dot.  A second dot is left inside
the fractional part, where `natOfDigits` then fails. -/
def splitAtDot : List Char → List Char × Option (List Char)
  | [] => ([], none)
  | c :: cs =>
      if c = '.' then ([], some cs)
      else
        let p := splitAtDot cs
        (c :: p.1, p.2)

/-- Unsigned decimal (`"29"`, `"29.85"`, `"29."`, `".85"`) as a pair of
mantissa and number of fractional digits: `"29.85"` gives `(2985, 2)`,
meaning 2985 / 10^2. -/
def parseUnsignedPair (cs : List Char) : Option (Nat × Nat) :=
  let p := splitAtDot cs
  match p.2 with
  | none => (natOfDigits p.1).map (fun n => (n, 0))
  | some fp =>
      if p.1.isEmpty && fp.isEmpty then none
      else
        match (if p.1.isEmpty then some 0 else natOfDigits p.1),
              (if fp.isEmpty then some 0 else natOfDigits fp) with
        | some a, some b => some (a * 10 ^ fp.length + b, fp.length)
        | _, _ => none

/-- The rational value of a (mantissa, fractional-digit-count) pair. -/
def pairToRat (p : Nat × Nat) : ℚ :=
  (p.1 : ℚ) / (10 : ℚ) ^ p.2

/-- Decimal parse of a character list with optional sign. -/
def parseListNumeric : List Char → Option ℚ
  | '-' :: rest => (parseUnsignedPair rest).map (fun p => -(pairToRat p))
  | '+' :: rest => (parseUnsignedPair rest).map pairToRat
  | cs => (parseUnsignedPair cs).map pairToRat

/-- Decimal parse with optional sign, modelling the numeric strings
`pd.to_numeric` accepts in this dashboard's data. -/
def parseNumeric (s : String) : Option ℚ :=
  parseListNumeric s.toList

/-- `to_numeric(errors="coerce").fillna(0)` on one cell. -/
def coerceCell : Cell → Cell
  | .na => .num 0
  | .num q => .num q
  | .str s => .num ((parseNumeric s).getD 0)

/-- Lines 29-30: if the frame has a `TotalCharges` column, overwrite it in
place with the coerced values. -/
def coerceTotalCharges (df : DF) : DF :=
  if df.hasTotalCharges then
    { df with rows := df.rows.map (fun r => { r with totalCharges := coerceCell r.totalCharges }) }
  else df

/-! ### Health score and risk tier (lines 41, 45-49) -/

/-- Line 41: `health_score = 1 - churn_prob`. -/
def healthScore (p : ℚ) : ℚ := 1 - p

/-- The three risk tiers. -/
inductive Risk where
  | high
  | medium
  | healthy
deriving DecidableEq, Repr

/-- Lines 45-49: `pd.cut(health_score, bins=[-0.01, 0.3, 0.7, 1.0],
labels=["High Risk", "Medium Risk", "Healthy"])`.  `pd.cut` with
`right=True` puts `x` in bin `i` when `bins[i] < x <= bins[i+1]`; values
outside every bin become NaN (`none`). -/
def riskLevel (x : ℚ) : Option Risk :=
  if -1/100 < x ∧ x ≤ 3/10 then some .high
  else if 3/10 < x ∧ x ≤ 7/10 then some .medium
  else if 7/10 < x ∧ x ≤ 1 then some .healthy
  else none

/-! ### The id column (lines 32-35)

`ids = df["customerID"]` when the column exists, otherwise
`ids = pd.Series(range(len(df)))`.  Note that the source computes `ids`
and never uses it again. -/

/-- Value of the `ids` series: a string id from the table or a
synthesized integer index. -/
inductive IdVal where
  | str (s : String)
  | idx (n : Nat)
deriving DecidableEq, Repr

/-- Lines 32-35. -/
def idsOf (df : DF) : List IdVal :=
  if df.hasCustomerID then df.rows.map (fun r => .str r.customerID)
  else (List.range df.rows.length).map .idx

/-! ### Sorting and ranking (lines 43-49) -/

/-- A row of the scored output frame `df_sorted`: the original columns
plus the `health_score`, `Rank` and `Risk_Level` columns. -/
structure ScoredRow where
  row : Row
  healthScore : ℚ
  rank : Nat
  risk : Option Risk
deriving DecidableEq, Repr

/-- The scored output frame. -/
structure ScoredDF where
  hasCustomerID : Bool
  hasTotalCharges : Bool
  rows : List ScoredRow
deriving DecidableEq, Repr

/-- Insert one (row, score) pair after every element with a score `<=`
its own.  `df.sort_values("health_score")` is called with the default
sort kind, whose order among equal keys is left unspecified by pandas;
the insertion sort below realizes one admissible (stable, ascending)
order, and no theorem in this file depends on the order of ties. -/
def insertByScore (p : Row × ℚ) : List (Row × ℚ) → List (Row × ℚ)
  | [] => [p]
  | q :: rest => if q.2 ≤ p.2 then q :: insertByScore p rest else p :: q :: rest

/-- Ascending sort of the (row, health_score) pairs (line 43). -/
def sortByScore : List (Row × ℚ) → List (Row × ℚ)
  | [] => []
  | p :: rest => insertByScore p (sortByScore rest)

/-- Lines 44-49: `reset_index(drop=True)`, `Rank = index + 1`, and the
`Risk_Level` column from `pd.cut` on the sorted `health_score` column. -/
def attachRanks : Nat → List (Row × ℚ) → List ScoredRow
  | _, [] => []
  | i, p :: rest =>
      { row := p.1, healthScore := p.2, rank := i + 1, risk := riskLevel p.2 } :: attachRanks (i + 1) rest

/-- Lines 28-50, `predict_health_scores(df)`.  The classifier is the
opaque external collaborator `clf`, applied to a row with `customerID`
and `Churn` excluded (the `df_features` copy of lines 37-38); it returns
the positive-class probability of line 40.  The first component of the
result is the caller's frame after the call — the function mutates its
argument: it overwrites `TotalCharges` in place (line 30) and appends the
`health_score` column (line 41).  The second component is the returned
sorted frame `df_sorted`. -/
def predictHealthScores (clf : Row → ℚ) (df : DF) : DF × ScoredDF :=
  let df1 := coerceTotalCharges df
  let _ids := idsOf df1
  let df2 : DF := { df1 with healthScores := some (df1.rows.map (fun r => healthScore (clf r))) }
  let sorted := sortByScore (df2.rows.map (fun r => (r, healthScore (clf r))))
  (df2, { hasCustomerID := df2.hasCustomerID, hasTotalCharges := df2.hasTotalCharges,
          rows := attachRanks 0 sorted })

/-! ### Email generation (lines 55-103, `generate_email`)

The generative-text collaborator is the opaque `oracle : String → Option
String`: it receives the rendered prompt and returns the response text,
or `none` when configuration or generation raised (both `except` blocks
of the source catch the exception, surface a UI error and return
`None`). -/

/-- Python `f"{x:.3f}"` for the non-negative health scores used here:
scale by 1000, round, and print with three fractional digits.  For
`q = a / b` with `a, b ≥ 0`, `n` below is `⌊1000 q + 1/2⌋`, computed on
the numerator and denominator directly. -/
def format3 (q : ℚ) : String :=
  let n : Nat := (q.num.toNat * 2000 + q.den) / (2 * q.den)
  let frac := n % 1000
  let pad := if frac < 10 then "00" else if frac < 100 then "0" else ""
  toString (n / 1000) ++ "." ++ pad ++ toString frac

/-- Lines 66-96: the prompt f-string, verbatim, with the customer fields
interpolated. -/
def emailPrompt (e : ScoredRow) : String :=
  "\n    You are a customer retention specialist at a telecom company.\n    A customer is at high risk of churning. Their details are:\n    - Customer ID: " ++ e.row.customerID ++ "\n    - Email: " ++ e.row.email ++ "\n    - Complaint: " ++ e.row.complaint ++ "\n    - Health Score: " ++ format3 e.healthScore ++ " (closer to 0 is worse)\n\n    Write a personalized and empathetic HTML email to this customer.\n    The goal is to acknowledge their issue, show that you are taking it seriously,\n    and offer to help resolve it. Keep the tone professional and caring.\n    offer any discounts or promotions.\n    Sign off as \"Telcom Service Team\".\n\n    The email should be visually appealing and well-formatted.\n    Use HTML tags to structure the email with headings, paragraphs, and bold text for emphasis.\n    Here is an example of the structure:\n    <html>\n    <head></head>\n    <body>\n        <h2>Subject: Regarding Your Recent Experience</h2>\n        <p>Dear Customer,</p>\n        <p>We are writing to you about the recent issue you experienced: <strong>" ++ e.row.complaint ++ "</strong>.</p>\n        <p>...</p>\n        <p>Sincerely,</p>\n        <p><strong>The Customer Success Team</strong></p>\n    </body>\n    </html>\n\n    Please only return the raw HTML of the email, starting with <html> and ending with </html>.\n    "

/-- `generate_email(row)`: render the prompt and consult the external
collaborator; `none` is the distinguished no-message result returned
when configuration or generation fails. -/
def generateEmail (oracle : String → Option String) (e : ScoredRow) : Option String :=
  oracle (emailPrompt e)

/-! ### Mail delivery (lines 108-136, `send_email`) -/

/-- The five SMTP environment variables of lines 112-116; `none` models
an unset variable. -/
structure SmtpConfig where
  fromEmail : Option String
  server : Option String
  port : Option String
  user : Option String
  password : Option String
deriving DecidableEq, Repr

/-- Python truthiness of one `os.environ.get` result: `None` and the
empty string are falsy. -/
def truthyEnv : Option String → Bool
  | none => false
  | some s => !s.isEmpty

/-- Line 118: `all([from_address, smtp_server, smtp_port, smtp_user,
smtp_password])`. -/
def configComplete (c : SmtpConfig) : Bool :=
  truthyEnv c.fromEmail && truthyEnv c.server && truthyEnv c.port &&
    truthyEnv c.user && truthyEnv c.password

/-- `send_email(to, subject, body)`.  With incomplete configuration it
returns `False` before contacting the relay (lines 118-120); otherwise
the SMTP session is the opaque `relay`, whose `false` models the caught
exception of lines 134-136.  The embedding is a total function: the
source never lets an exception escape this boundary. -/
def sendEmail (cfg : SmtpConfig) (relay : String → String → String → Bool)
    (toAddr subject body : String) : Bool :=
  if configComplete cfg then relay toAddr subject body else false

/-! ### The outreach loop (lines 180-220) -/

/-- The three delivery statuses the loop can record, rendered in the
report as the string literals of lines 198, 206 and 214. -/
inductive Status where
  | sent
  | failedToSend
  | generationFailed
deriving DecidableEq, Repr

/-- The literal status strings of the source. -/
def Status.render : Status → String
  | .sent => "✅ Sent"
  | .failedToSend => "❌ Failed"
  | .generationFailed => "❌ Generation Failed"

/-- One entry of `email_reports` (lines 195-216). -/
structure OutreachAttempt where
  customerID : String
  email : String
  status : Status
  healthScore : ℚ
deriving DecidableEq, Repr

/-- What one loop iteration did: the recorded attempt and whether
`send_email` was invoked at all. -/
structure StepResult where
  attempt : OutreachAttempt
  sendAttempted : Bool
deriving DecidableEq, Repr

/-- Python truthiness of the generated content: `None` and `""` both
take the `Generation Failed` branch of line 190. -/
def truthyStr : Option String → Bool
  | none => false
  | some s => !s.isEmpty

/-- One iteration of the loop of lines 183-216 for one top-5 row:
generate, then (only when a message exists) send, and record exactly one
attempt. -/
def processRow (oracle : String → Option String) (send : String → String → String → Bool)
    (e : ScoredRow) : StepResult :=
  let content := generateEmail oracle e
  if truthyStr content then
    let ok := send e.row.email "Regarding your experience with our service" (content.getD "")
    { attempt := { customerID := e.row.customerID, email := e.row.email,
                   status := if ok then .sent else .failedToSend,
                   healthScore := e.healthScore },
      sendAttempted := true }
  else
    { attempt := { customerID := e.row.customerID, email := e.row.email,
                   status := .generationFailed, healthScore := e.healthScore },
      sendAttempted := false }

/-- The whole loop: one `StepResult` per top-5 row, in order.  The
source's per-iteration counters are derived from the statuses and add no
state, so the loop is a map. -/
def emailReports (oracle : String → Option String) (send : String → String → String → Bool)
    (top5 : List ScoredRow) : List StepResult :=
  top5.map (processRow oracle send)

/-! ### Session state and the idempotency guard (lines 170-238) -/

/-- `st.session_state`, restricted to the two key families the script
uses: the ids with an `emails_sent_<id>` flag set, and the stored
`email_reports_<id>` lists. -/
structure SessionState where
  sentFlags : List String
  storedReports : List (String × List OutreachAttempt)
deriving DecidableEq, Repr

/-- Line 172: `current_file_id = f"{uploaded_file.name}_{len(top_5)}"`. -/
def fileId (name : String) (n : Nat) : String :=
  name ++ "_" ++ toString n

/-- Lookup of a stored report by file id. -/
def lookupReport : List (String × List OutreachAttempt) → String → Option (List OutreachAttempt)
  | [], _ => none
  | p :: rest, key => if p.1 = key then some p.2 else lookupReport rest key

/-- Lines 174-238: one rendering of the automatic-outreach block.  If the
`emails_sent_` flag for the current file id is absent, run the loop,
store the flag and the report, and display the fresh report; otherwise
perform nothing and display the stored report.  The third component
lists the iterations actually performed during this rendering. -/
def outreachPass (oracle : String → Option String) (send : String → String → String → Bool)
    (name : String) (top5 : List ScoredRow) (st : SessionState) :
    SessionState × List OutreachAttempt × List StepResult :=
  let fid := fileId name top5.length
  if fid ∈ st.sentFlags then
    (st, (lookupReport st.storedReports fid).getD [], [])
  else
    let results := emailReports oracle send top5
    let reports := results.map (fun r => r.attempt)
    ({ sentFlags := fid :: st.sentFlags, storedReports := (fid, reports) :: st.storedReports },
     reports, results)

/-! ### Asset loading (lines 17-23, `load_assets`) -/

/-- `joblib.load` of one artifact: raises (here `Except.error`) when the
artifact is absent or cannot be unpickled, modelled by `none`. -/
def loadArtifact {A : Type} (art : Option A) : Except String A :=
  match art with
  | some a => .ok a
  | none => .error "FileNotFoundError"

/-- Lines 18-21: load the model, then the label encoder, with no
`try/except` around either load — an error in either propagates. -/
def load_assets {M E : Type} (modelArt : Option M) (encArt : Option E) :
    Except String (M × E) :=
  match loadArtifact modelArt with
  | .error e => .error e
  | .ok m =>
      match loadArtifact encArt with
      | .error e => .error e
      | .ok enc => .ok (m, enc)

/-- Did `load_assets` succeed? -/
def loadSucceeded {M E : Type} : Except String (M × E) → Bool
  | .ok _ => true
  | .error _ => false

/-! ### Substring search, used to state facts about the prompt text -/

/-- Does the pattern match at the head of the text? -/
def leadMatch : List Char → List Char → Bool
  | [], _ => true
  | _ :: _, [] => false
  | p :: ps, c :: cs => p == c && leadMatch ps cs

/-- Does the pattern occur anywhere in the text? -/
def containsAt (p : List Char) : List Char → Bool
  | [] => leadMatch p []
  | c :: cs => leadMatch p (c :: cs) || containsAt p cs

/-- Substring test on strings. -/
def strContains (s pat : String) : Bool :=
  containsAt pat.toList s.toList

/-! ### Concrete fixtures, used to evaluate the model on explicit inputs -/

/-- A stub classifier. -/
def clf0 : Row → ℚ := fun _ => 1/2

/-- A customer row whose raw `TotalCharges` cell is the non-numeric
string `"abc"`. -/
def row0 : Row :=
  { customerID := "0001-TEST", totalCharges := .str "abc",
    email := "0001@telecommail.com",
    complaint := "Frequent call drops and poor voice clarity", otherFeatures := [] }

/-- A one-row uploaded table with `customerID` and `TotalCharges`
columns. -/
def df0 : DF :=
  { hasCustomerID := true, hasTotalCharges := true, rows := [row0], healthScores := none }

/-- A two-row uploaded table without a `customerID` column. -/
def df10 : DF :=
  { hasCustomerID := false, hasTotalCharges := true, rows := [row0, row0], healthScores := none }

/-- A scored top-5 row at the worst possible health score. -/
def sr0 : ScoredRow :=
  { row := row0, healthScore := 0, rank := 1, risk := some .high }

/-- A generation oracle that always produces a message. -/
def oracle0 : String → Option String := fun _ => some "message"

/-- A generation oracle that always fails (configuration or generation
error). -/
def oracleNone : String → Option String := fun _ => none

/-- A delivery function that always succeeds. -/
def send0 : String → String → String → Bool := fun _ _ _ => true

/-- The empty session state of a fresh upload. -/
def st00 : SessionState := { sentFlags := [], storedReports := [] }

/-- An SMTP configuration with the password unset. -/
def cfg0 : SmtpConfig :=
  { fromEmail := some "noreply@telco.example", server := some "smtp.telco.example",
    port := some "587", user := some "svc", password := none }

/-- A relay that would accept every message. -/
def relay0 : String → String → String → Bool := fun _ _ _ => true

/-- Five targeted customers. -/
def top5five : List ScoredRow := [sr0, sr0, sr0, sr0, sr0]

/-! ## Helper lemmas -/

theorem insertByScore_mem {a p : Row × ℚ} :
    ∀ {l : List (Row × ℚ)}, a ∈ insertByScore p l ↔ a = p ∨ a ∈ l := by
  intro l
  induction l with
  | nil => simp [insertByScore]
  | cons q rest ih =>
      simp only [insertByScore]
      split
      · simp only [List.mem_cons, ih]
        tauto
      · simp [List.mem_cons]

theorem sortByScore_mem {a : Row × ℚ} :
    ∀ {l : List (Row × ℚ)}, a ∈ sortByScore l ↔ a ∈ l := by
  intro l
  induction l with
  | nil => simp [sortByScore]
  | cons p rest ih =>
      simp only [sortByScore, insertByScore_mem, ih, List.mem_cons]

theorem attachRanks_mem {e : ScoredRow} :
    ∀ {i : Nat} {l : List (Row × ℚ)}, e ∈ attachRanks i l →
      e.risk = riskLevel e.healthScore ∧ (e.row, e.healthScore) ∈ l := by
  intro i l
  induction l generalizing i with
  | nil => intro h; simp [attachRanks] at h
  | cons p rest ih =>
      intro h
      simp only [attachRanks, List.mem_cons] at h
      rcases h with h | h
      · subst h
        exact ⟨rfl, List.mem_cons_self _ _⟩
      · obtain ⟨h1, h2⟩ := ih h
        exact ⟨h1, List.mem_cons_of_mem _ h2⟩

theorem riskLevel_high_iff {x : ℚ} (hx0 : 0 ≤ x) :
    riskLevel x = some Risk.high ↔ x ≤ 3/10 := by
  unfold riskLevel
  split_ifs with h1 h2 h3
  · exact iff_of_true rfl h1.2
  · exact iff_of_false (by simp) (by linarith [h2.1])
  · exact iff_of_false (by simp) (by linarith [h3.1])
  · push_neg at h1
    exact iff_of_false (by simp) (by have := h1 (by linarith); linarith)

theorem riskLevel_medium_iff {x : ℚ} :
    riskLevel x = some Risk.medium ↔ 3/10 < x ∧ x ≤ 7/10 := by
  unfold riskLevel
  split_ifs with h1 h2 h3
  · exact iff_of_false (by simp) (by rintro ⟨h, -⟩; linarith [h1.2])
  · exact iff_of_true rfl h2
  · exact iff_of_false (by simp) (by rintro ⟨-, h⟩; linarith [h3.1])
  · push_neg at h1 h2
    refine iff_of_false (by simp) ?_
    rintro ⟨ha, hb⟩
    exact absurd (h2 ha) (by simp [hb])

theorem riskLevel_healthy_iff {x : ℚ} :
    riskLevel x = some Risk.healthy ↔ 7/10 < x ∧ x ≤ 1 := by
  unfold riskLevel
  split_ifs with h1 h2 h3
  · exact iff_of_false (by simp) (by rintro ⟨h, -⟩; linarith [h1.2])
  · exact iff_of_false (by simp) (by rintro ⟨h, -⟩; linarith [h2.2])
  · exact iff_of_true rfl h3
  · exact iff_of_false (by simp) (by intro h; exact h3 h)

/-! ## Claim theorems -/

set_option maxRecDepth 10000

/-- C1: for every probability p in [0,1], the health score is 1 - p, and
the risk tier is a pure function of the health score with High Risk iff
health_score <= 0.3 (0 included), Medium Risk iff 0.3 < health_score <=
0.7 and Healthy iff 0.7 < health_score <= 1, the boundaries 0.3 and 0.7
falling in the lower tier; moreover every record of the scored output
frame carries the risk tier of its own health score, and its health
score is 1 - (classifier probability) of some input row. -/
theorem health_score_and_risk_tiers (p : ℚ) (_hp0 : 0 ≤ p) (hp1 : p ≤ 1) :
    (healthScore p = 1 - p ∧
      (riskLevel (healthScore p) = some Risk.high ↔ healthScore p ≤ 3/10) ∧
      (riskLevel (healthScore p) = some Risk.medium ↔
        3/10 < healthScore p ∧ healthScore p ≤ 7/10) ∧
      (riskLevel (healthScore p) = some Risk.healthy ↔
        7/10 < healthScore p ∧ healthScore p ≤ 1)) ∧
    ∀ (clf : Row → ℚ) (df : DF) (e : ScoredRow),
      e ∈ ((predictHealthScores clf df).2).rows →
      e.risk = riskLevel e.healthScore ∧
      ∃ r ∈ (coerceTotalCharges df).rows, e.healthScore = healthScore (clf r) := by
  constructor
  · have hx0 : 0 ≤ healthScore p := by simp only [healthScore]; linarith
    exact ⟨rfl, riskLevel_high_iff hx0, riskLevel_medium_iff, riskLevel_healthy_iff⟩
  · intro clf df e he
    have he2 : e ∈ attachRanks 0 (sortByScore
        ((coerceTotalCharges df).rows.map (fun r => (r, healthScore (clf r))))) := he
    obtain ⟨h1, h2⟩ := attachRanks_mem he2
    refine ⟨h1, ?_⟩
    have h3 : (e.row, e.healthScore) ∈
        (coerceTotalCharges df).rows.map (fun r => (r, healthScore (clf r))) :=
      sortByScore_mem.mp h2
    obtain ⟨r, hr, heq⟩ := List.mem_map.mp h3
    refine ⟨r, hr, ?_⟩
    have := congrArg Prod.snd heq
    simpa using this.symm

/-- C1 witness: at p = 0.7 the health score is exactly the 0.3 boundary
and falls in the High Risk tier. -/
theorem health_score_and_risk_tiers_witness :
    riskLevel (healthScore (7/10)) = some Risk.high :=
  ((health_score_and_risk_tiers (7/10) (by norm_num) (by norm_num)).1.2.1).mpr
    (by norm_num [healthScore])

/-- C3: re-running the automatic outreach pass for the same uploaded file
name and top-N row count performs no generation or send work the second
time and replays the first delivery report unchanged; the first run
processes each targeted customer exactly once. -/
theorem outreach_idempotent (oracle : String → Option String)
    (send : String → String → String → Bool) (name : String)
    (top5 : List ScoredRow) (st0 : SessionState)
    (h : fileId name top5.length ∉ st0.sentFlags) :
    ((outreachPass oracle send name top5
        (outreachPass oracle send name top5 st0).1).2.1 =
      (outreachPass oracle send name top5 st0).2.1) ∧
    (outreachPass oracle send name top5
        (outreachPass oracle send name top5 st0).1).2.2 = [] ∧
    (outreachPass oracle send name top5 st0).2.2.length = top5.length := by
  unfold outreachPass
  rw [if_neg h]
  simp only []
  rw [if_pos (List.mem_cons_self _ _)]
  simp [lookupReport, emailReports]

/-- C3 witness: a concrete pass on one customer followed by a replay that
performs nothing. -/
theorem outreach_idempotent_witness :
    (outreachPass oracle0 send0 "customers.csv" [sr0]
        (outreachPass oracle0 send0 "customers.csv" [sr0] st00).1).2.2 = [] :=
  (outreach_idempotent oracle0 send0 "customers.csv" [sr0] st00
    (by simp [st00])).2.1

/-- C4: the outreach loop records exactly one attempt per targeted
customer, in order, whose status is Sent, Failed to Send or Generation
Failed; when the composer returns its distinguished no-message result
the attempt is recorded as Generation Failed and no delivery is
attempted for that customer; and no customer's outcome prevents the
remaining customers from being processed. -/
theorem attempt_per_customer (oracle : String → Option String)
    (send : String → String → String → Bool) (top5 : List ScoredRow) :
    (emailReports oracle send top5).length = top5.length ∧
    ∀ i e, top5.get? i = some e →
      ∃ res, (emailReports oracle send top5).get? i = some res ∧
        res.attempt.customerID = e.row.customerID ∧
        res.attempt.email = e.row.email ∧
        (res.attempt.status = Status.sent ∨ res.attempt.status = Status.failedToSend ∨
          res.attempt.status = Status.generationFailed) ∧
        (truthyStr (generateEmail oracle e) = false →
          res.attempt.status = Status.generationFailed ∧ res.sendAttempted = false) := by
  constructor
  · simp [emailReports]
  · intro i e he
    refine ⟨processRow oracle send e, ?_, ?_, ?_, ?_, ?_⟩
    · show (top5.map (processRow oracle send)).get? i = some (processRow oracle send e)
      rw [List.get?_map, he, Option.map_some']
    · rcases hg : truthyStr (generateEmail oracle e) with _ | _ <;>
        simp [processRow, hg]
    · rcases hg : truthyStr (generateEmail oracle e) with _ | _ <;>
        simp [processRow, hg]
    · rcases hg : truthyStr (generateEmail oracle e) with _ | _
      · simp [processRow, hg]
      · rcases hok : send e.row.email "Regarding your experience with our service"
            ((generateEmail oracle e).getD "") with _ | _ <;> simp [processRow, hg, hok]
    · intro hfail
      constructor <;> simp [processRow, hfail]

/-- C4 witness: with a failing composer the single customer's attempt is
recorded as Generation Failed and no delivery is attempted. -/
theorem attempt_per_customer_witness :
    ∃ res, (emailReports oracleNone send0 [sr0]).get? 0 = some res ∧
      res.attempt.status = Status.generationFailed ∧ res.sendAttempted = false := by
  obtain ⟨-, h⟩ := attempt_per_customer oracleNone send0 [sr0]
  obtain ⟨res, h1, -, -, -, h5⟩ := h 0 sr0 rfl
  obtain ⟨hs, ha⟩ := h5 rfl
  exact ⟨res, h1, hs, ha⟩

/-- C5: when the table has a `TotalCharges` column, coercion drops no row
and raises no error, every missing cell and every non-numeric string
becomes exactly 0, numeric cells pass through, and a valid numeric
string parses to exactly its decimal value (`"29.85"` to 29.85). -/
theorem total_charges_coercion (df : DF) (h : df.hasTotalCharges = true) :
    (coerceTotalCharges df).rows.length = df.rows.length ∧
    (∀ i r, df.rows.get? i = some r →
      (coerceTotalCharges df).rows.get? i =
        some { r with totalCharges := coerceCell r.totalCharges }) ∧
    coerceCell .na = .num 0 ∧
    (∀ s, parseNumeric s = none → coerceCell (.str s) = .num 0) ∧
    (∀ s q, parseNumeric s = some q → coerceCell (.str s) = .num q) ∧
    parseNumeric "29.85" = some ((2985 : ℚ) / 100) := by
  have hdf : (coerceTotalCharges df).rows =
      df.rows.map (fun r => { r with totalCharges := coerceCell r.totalCharges }) := by
    simp [coerceTotalCharges, h]
  refine ⟨?_, ?_, rfl, ?_, ?_, ?_⟩
  · rw [hdf, List.length_map]
  · intro i r hr
    rw [hdf, List.get?_map, hr, Option.map_some']
  · intro s hs
    simp [coerceCell, hs]
  · intro s q hs
    simp [coerceCell, hs]
  · have h1 : parseNumeric "29.85" = some (pairToRat (2985, 2)) := rfl
    rw [h1]
    norm_num [pairToRat]

/-- C5 witness: the coercion on a concrete one-row table with a
non-numeric `TotalCharges` cell keeps the row count. -/
theorem total_charges_coercion_witness :
    (coerceTotalCharges df0).rows.length = df0.rows.length :=
  (total_charges_coercion df0 rfl).1

/-- C6: with any one of the five SMTP configuration values missing, mail
delivery returns a failure outcome (it never raises: the embedding is a
total function returning `false`), and an outreach pass over five
customers whose generation succeeds records all five attempts as Failed
to Send. -/
theorem missing_smtp_config (cfg : SmtpConfig)
    (relay : String → String → String → Bool) (oracle : String → Option String)
    (top5 : List ScoredRow)
    (hmiss : cfg.fromEmail = none ∨ cfg.server = none ∨ cfg.port = none ∨
      cfg.user = none ∨ cfg.password = none)
    (hlen : top5.length = 5)
    (hgen : ∀ e ∈ top5, truthyStr (generateEmail oracle e) = true) :
    (∀ toAddr subject body, sendEmail cfg relay toAddr subject body = false) ∧
    (emailReports oracle (sendEmail cfg relay) top5).length = 5 ∧
    (∀ res ∈ emailReports oracle (sendEmail cfg relay) top5,
      res.attempt.status = Status.failedToSend) := by
  have hcc : configComplete cfg = false := by
    rcases hmiss with h | h | h | h | h <;> simp [configComplete, truthyEnv, h]
  have hsend : ∀ a b c, sendEmail cfg relay a b c = false := by
    intro a b c
    simp [sendEmail, hcc]
  refine ⟨hsend, by simp [emailReports, hlen], ?_⟩
  intro res hres
  simp only [emailReports, List.mem_map] at hres
  obtain ⟨e, he, hre⟩ := hres
  have hg := hgen e he
  subst hre
  simp [processRow, hg, hsend]

/-- C6 witness: a concrete configuration with the password unset makes
all five concrete attempts Failed to Send. -/
theorem missing_smtp_config_witness :
    (emailReports oracle0 (sendEmail cfg0 relay0) top5five).length = 5 ∧
    sendEmail cfg0 relay0 "a@b.c" "subject" "body" = false := by
  have h := missing_smtp_config cfg0 relay0 oracle0 top5five
    (by simp [cfg0]) (by simp [top5five]) (by intro e he; rfl)
  exact ⟨h.2.1, h.1 "a@b.c" "subject" "body"⟩

/-- C7 counterexample: the scorer is not side-effect free — on a one-row
table whose `TotalCharges` cell is the string "abc", the caller's table
after the call holds 0 in that cell: an existing column was overwritten
in place, not merely appended to. -/
theorem scorer_mutates_counterexample :
    ((predictHealthScores clf0 df0).1.rows.map Row.totalCharges) ≠
      (df0.rows.map Row.totalCharges) := by decide

/-- C7 amended: the scorer mutates the caller's table in exactly two
ways — it coerces the `TotalCharges` column in place (when present) and
appends the derived `health_score` column; every other column of every
row is unchanged, no row is added or dropped, and column presence flags
are unchanged. -/
theorem scorer_mutation_bound (clf : Row → ℚ) (df : DF) :
    ((predictHealthScores clf df).1.hasCustomerID = df.hasCustomerID) ∧
    ((predictHealthScores clf df).1.hasTotalCharges = df.hasTotalCharges) ∧
    ((predictHealthScores clf df).1.rows.length = df.rows.length) ∧
    (∀ i r, df.rows.get? i = some r →
      (predictHealthScores clf df).1.rows.get? i =
        some (if df.hasTotalCharges then
          { r with totalCharges := coerceCell r.totalCharges } else r)) ∧
    ((predictHealthScores clf df).1.healthScores =
      some ((coerceTotalCharges df).rows.map (fun r => healthScore (clf r)))) := by
  have hC : (coerceTotalCharges df).hasCustomerID = df.hasCustomerID := by
    unfold coerceTotalCharges
    split <;> rfl
  have hT : (coerceTotalCharges df).hasTotalCharges = df.hasTotalCharges := by
    unfold coerceTotalCharges
    split <;> rfl
  have hlen : (coerceTotalCharges df).rows.length = df.rows.length := by
    unfold coerceTotalCharges
    split <;> simp
  have hrows : ∀ i r, df.rows.get? i = some r →
      (coerceTotalCharges df).rows.get? i =
        some (if df.hasTotalCharges then
          { r with totalCharges := coerceCell r.totalCharges } else r) := by
    intro i r hr
    rcases hTC : df.hasTotalCharges with _ | _
    · have hco : coerceTotalCharges df = df := by
        unfold coerceTotalCharges
        rw [hTC]
        simp
      rw [hco]
      simpa using hr
    · have hco : (coerceTotalCharges df).rows =
          df.rows.map (fun x => { x with totalCharges := coerceCell x.totalCharges }) := by
        unfold coerceTotalCharges
        rw [hTC]
        simp
      rw [hco, List.get?_map, hr, Option.map_some']
      simp
  exact ⟨hC, hT, hlen, hrows, rfl⟩

/-- C7 amended witness: on the concrete one-row table the caller's row
after the call is the original row with only `TotalCharges` coerced. -/
theorem scorer_mutation_bound_witness :
    (predictHealthScores clf0 df0).1.rows.get? 0 =
      some { row0 with totalCharges := coerceCell row0.totalCharges } := by
  have h := (scorer_mutation_bound clf0 df0).2.2.2.1 0 row0 rfl
  simpa [df0] using h

/-- C8: the prompt submitted to the generative-text collaborator directs
the model to sign as the fixed service-team name, but contains no
negated discount directive: the line reads exactly "offer any discounts
or promotions." with no occurrence of "not" in any casing — the "Do not"
the specification describes is missing from the source. -/
theorem prompt_discount_directive :
    strContains (emailPrompt sr0) "offer any discounts or promotions." = true ∧
    strContains (emailPrompt sr0) "not" = false ∧
    strContains (emailPrompt sr0) "Not" = false ∧
    strContains (emailPrompt sr0) "NOT" = false ∧
    strContains (emailPrompt sr0) "Sign off as \"Telcom Service Team\"." = true :=
  ⟨by decide, by decide, by decide, by decide, by decide⟩

/-- C9 counterexample: with the label-encoder artifact absent, loading
does not succeed with a fallback — `load_assets` propagates the load
error. -/
theorem load_assets_counterexample :
    load_assets (some 0) (none : Option Nat) = .error "FileNotFoundError" := rfl

/-- C9 amended: `load_assets` succeeds exactly when both artifacts load;
an absent label encoder makes the whole load fail — no fallback encoder
is constructed in this variant. -/
theorem load_assets_requires_both {M E : Type} (m : Option M) (e : Option E) :
    loadSucceeded (load_assets m e) = (m.isSome && e.isSome) ∧
    ∀ mv : M, load_assets (some mv) (none : Option E) = .error "FileNotFoundError" := by
  constructor
  · cases m <;> cases e <;> rfl
  · intro mv
    rfl

/-- C10: on a two-row table without a `customerID` column the source
synthesizes ids 0 and 1 as the claim states, but the `ids` variable is
never used again: the scored output frame still has no `customerID`
column, so the synthesized ids do not appear downstream. -/
theorem synthesized_ids_unused :
    idsOf df10 = [.idx 0, .idx 1] ∧
    (predictHealthScores clf0 df10).2.hasCustomerID = false :=
  ⟨by decide, rfl⟩

end ChurnDashboard
